import Mathlib

/-!
Verification of the physician-lookup core of the repository.

The embedded code is `fetch_physician_data` from `src/Python Backend/cms_calc.py`
(the most complete draft, duplicated verbatim in `src/Python Backend/src/api.py`),
the bulk drivers `process_bulk_names` / `process_file` from `src/api.py`, and the
retry configuration from `src/Python Backend/cms_calc.py` lines 89-98 and 127-132.

Python strings are modelled as Lean `String`s (lists of characters); the Python
ASCII behaviour of `str.lower` / `str.upper` / `str.startswith` /
`str.split(maxsplit=1)` / `str.strip` is reproduced by the `py*` helpers below.
Python exceptions (`KeyError`, `IndexError`) are modelled with `Except String`.
Dataset fields that the code parses with `int(...)` / `float(...)` are modelled
as already-numeric optional fields (`Option Nat` / `Option Int`); an absent key
makes `dict.get` return the supplied default exactly as in the source.
-/

/-- Python `c.lower()` for a single character, ASCII range (A-Z ↦ a-z). -/
def pyCharLower (c : Char) : Char :=
  if 65 ≤ c.toNat ∧ c.toNat ≤ 90 then Char.ofNat (c.toNat + 32) else c

/-- Python `c.upper()` for a single character, ASCII range (a-z ↦ A-Z). -/
def pyCharUpper (c : Char) : Char :=
  if 97 ≤ c.toNat ∧ c.toNat ≤ 122 then Char.ofNat (c.toNat - 32) else c

/-- Python `s.lower()`. -/
def pyLower (s : String) : String :=
  String.mk (s.toList.map pyCharLower)

/-- Python `s.upper()`. -/
def pyUpper (s : String) : String :=
  String.mk (s.toList.map pyCharUpper)

/-- Python `s.startswith(pre)`. -/
def pyStartswith (s pre : String) : Bool :=
  List.isPrefixOf pre.toList s.toList

/-- Python `s.strip()`: remove leading and trailing whitespace. -/
def pyStrip (s : String) : String :=
  String.mk (((s.toList.dropWhile Char.isWhitespace).reverse.dropWhile
    Char.isWhitespace).reverse)

/-- Python `s.split(maxsplit=1)`: skip leading whitespace, take the first
whitespace-delimited token, then the remainder of the string with the
separating whitespace run removed; whitespace-only input gives `[]`. -/
def pySplit1 (s : String) : List String :=
  let cs := s.toList.dropWhile Char.isWhitespace
  if cs = [] then []
  else
    let tok := cs.takeWhile (fun c => !c.isWhitespace)
    let rest := (cs.dropWhile (fun c => !c.isWhitespace)).dropWhile Char.isWhitespace
    if rest = [] then [String.mk tok] else [String.mk tok, String.mk rest]

/-- Python `s.split()` (split on whitespace runs, no empty tokens). -/
def pyWords (s : String) : List String :=
  (s.split (fun c => c.isWhitespace)).filter (fun w => !(w == ""))

/-- Values of the `search_type` request field (`"npi"` / `"name"`). -/
inductive SearchType
  | npi
  | name
deriving DecidableEq, Repr

/-- One decoded row of the CMS dataset response.  Every field is optional:
the JSON object may omit any key, and the source reads some keys with
`dict.get` (safe) and some with direct subscripting (raising `KeyError`). -/
structure RawRow where
  npi : Option String
  firstName : Option String
  lastOrgName : Option String
  state : Option String
  totBenes : Option Nat
  totAllowed : Option Int
deriving DecidableEq, Repr

/-- The dictionary `fetch_physician_data` returns on success
(`name`, `Tot_Benes`, `Tot_Mdcr_Alowd_Amt`, `NPI`, `State`). -/
structure MatchResult where
  name : String
  totBenes : Nat
  totAllowed : Int
  npi : Option String
  state : Option String
deriving DecidableEq, Repr

/-- The query parameters the source sends to the CMS endpoint:
`filter[Rndrng_NPI]`, `filter[Rndrng_Prvdr_Last_Org_Name]`,
`filter[Rndrng_Prvdr_State_Abrvtn]` and `size`. -/
structure Params where
  filterNpi : Option String
  filterLastOrg : Option String
  filterState : Option String
  size : Nat
deriving DecidableEq, Repr

/-- Python truthiness of the optional `state` argument: `if state:` is false
for `None` and for the empty string. -/
def stateSupplied (state : Option String) : Bool :=
  match state with
  | none => false
  | some s => !(s == "")

/-- The state filter value the source adds when `state` is truthy
(`params['filter[Rndrng_Prvdr_State_Abrvtn]'] = state.upper()`,
`src/Python Backend/cms_calc.py` lines 123-125). -/
def stateFilter (state : Option String) : Option String :=
  if stateSupplied state then some (pyUpper (state.getD "")) else none

/-- Parameters for an NPI search (`cms_calc.py` lines 101-107). -/
def npiParams (physicianName : String) (state : Option String) : Params :=
  { filterNpi := some physicianName, filterLastOrg := none
    filterState := stateFilter state, size := 1 }

/-- Parameters for a name search (`cms_calc.py` lines 108-121): the parsed
last name is the only name filter sent to the remote service. -/
def nameParams (lastName : String) (state : Option String) : Params :=
  { filterNpi := none, filterLastOrg := some lastName
    filterState := stateFilter state, size := 5000 }

/-- Name parsing in the name branch (`cms_calc.py` lines 110-115):
`physician_name.split(maxsplit=1)`; a two-token result is unpacked as
`(first_name, last_name)`, otherwise `last_name = name_parts[0]` and
`first_name = ""`; an empty token list raises `IndexError`. -/
def parseName (physicianName : String) : Except String (String × String) :=
  match pySplit1 physicianName with
  | [] => .error "IndexError: list index out of range"
  | [l] => .ok ("", l)
  | [f, l] => .ok (f, l)
  | x :: _ :: _ :: _ => .ok ("", x)

/-- The remote query parameters the source builds for a request, before the
single HTTP call (`cms_calc.py` lines 100-125). -/
def buildParams (physicianName : String) (searchType : SearchType)
    (state : Option String) : Except String Params :=
  match searchType with
  | .npi => .ok (npiParams physicianName state)
  | .name => (parseName physicianName).map (fun fl => nameParams fl.2 state)

/-- The result dictionary built from a selected row (`cms_calc.py` lines
146-152 and 162-168), with the defaults the source's `dict.get` calls use. -/
def projectRow (r : RawRow) : MatchResult :=
  { name := r.firstName.getD "" ++ " " ++ r.lastOrgName.getD ""
    totBenes := r.totBenes.getD 0
    totAllowed := r.totAllowed.getD 0
    npi := r.npi
    state := r.state }

/-- Building the result dictionary from a row: the f-string
`f"{result['Rndrng_Prvdr_First_Name']} {result['Rndrng_Prvdr_Last_Org_Name']}"`
subscripts both name keys directly, so a missing name field raises `KeyError`;
the remaining fields are read with `dict.get` and default safely. -/
def buildResult (r : RawRow) : Except String (Option MatchResult) :=
  match r.firstName, r.lastOrgName with
  | some _, some _ => .ok (some (projectRow r))
  | _, _ => .error "KeyError: name field"

/-- The name-search scan loop (`cms_calc.py` lines 155-171).  Each row's
`Rndrng_Prvdr_Last_Org_Name` is subscripted directly (raising `KeyError` when
absent); the first-name key is only read when the last name matched and a
non-empty first name was given, mirroring Python's short-circuit `and`/`or`. -/
def scanName (lastName firstName : String) :
    List RawRow → Except String (Option MatchResult)
  | [] => .ok none
  | r :: rs =>
    match r.lastOrgName with
    | none => .error "KeyError: Rndrng_Prvdr_Last_Org_Name"
    | some lon =>
      if pyLower lon == pyLower lastName then
        if firstName == "" then
          buildResult r
        else
          match r.firstName with
          | none => .error "KeyError: Rndrng_Prvdr_First_Name"
          | some fn =>
            if pyStartswith (pyLower fn) (pyLower firstName) then
              buildResult r
            else
              scanName lastName firstName rs
      else
        scanName lastName firstName rs

/-- Shallow embedding of `fetch_physician_data` (`src/Python Backend/cms_calc.py`
lines 80-178).  The remote service is abstracted as `query`, the function the
built parameters are handed to; `data = response.json()` is its result list.
An empty result list returns `None`; the NPI branch accepts `data[0]` with no
name comparison; the name branch runs the scan loop. -/
def fetchPhysicianData (query : Params → List RawRow) (physicianName : String)
    (searchType : SearchType) (state : Option String) :
    Except String (Option MatchResult) :=
  match searchType with
  | .npi =>
    let data := query (npiParams physicianName state)
    match data with
    | [] => .ok none
    | r :: _ => buildResult r
  | .name =>
    match parseName physicianName with
    | .error e => .error e
    | .ok (firstName, lastName) =>
      let data := query (nameParams lastName state)
      if data = [] then .ok none
      else scanName lastName firstName data

/-- Modelled from the spec: the Provider Directory Client's server-side filter
semantics (spec §4.1 and §4.2 step 2) — each recognized filter is an exact
string match on the corresponding row field, absent fields match nothing.
The remote service itself is outside the repository. -/
def rowPassesFilter (p : Params) (r : RawRow) : Bool :=
  (match p.filterNpi with | none => true | some v => r.npi == some v) &&
  (match p.filterLastOrg with | none => true | some v => r.lastOrgName == some v) &&
  (match p.filterState with | none => true | some v => r.state == some v)

/-- Modelled from the spec: one remote query over a dataset snapshot — the
rows passing every filter, capped at `size` results (spec §4.1). -/
def remoteQuery (dataset : List RawRow) (p : Params) : List RawRow :=
  (dataset.filter (rowPassesFilter p)).take p.size

/-- The full resolution pipeline: `fetch_physician_data` run against the
modelled remote directory over a fixed dataset snapshot. -/
def resolve (dataset : List RawRow) (physicianName : String)
    (searchType : SearchType) (state : Option String) :
    Except String (Option MatchResult) :=
  fetchPhysicianData (remoteQuery dataset) physicianName searchType state

/-- The `Retry(...)` configuration values from `src/Python Backend/cms_calc.py`
lines 89-94. -/
structure RetryConfig where
  total : Nat
  statusForcelist : List Nat
  allowedMethods : List String
deriving DecidableEq, Repr

/-- The retry strategy the source mounts on its HTTP session:
`Retry(total=3, status_forcelist=[429, 500, 502, 503, 504],
allowed_methods=["HEAD", "GET", "OPTIONS"])`. -/
def retryStrategy : RetryConfig :=
  { total := 3
    statusForcelist := [429, 500, 502, 503, 504]
    allowedMethods := ["HEAD", "GET", "OPTIONS"] }

/-- The fixed per-attempt timeout the source passes to `session.get`
(`timeout=30`, `cms_calc.py` line 131). -/
def requestTimeoutSeconds : Nat := 30

/-- Whether urllib3's `Retry` retries after a response: the request method must
be in `allowed_methods` and the status in `status_forcelist`. -/
def shouldRetry (cfg : RetryConfig) (method : String) (status : Nat) : Bool :=
  cfg.allowedMethods.contains method && cfg.statusForcelist.contains status

/-- Attempt loop of urllib3's `Retry` as mounted by the source: `budget` is the
remaining `total` count, `i` the index of the attempt about to be made, and
`statusOf i` the status the i-th attempt would receive.  Each retry consumes
one unit of budget; the initial attempt consumes none, so `total = 3` admits
up to four attempts.  Returns the final status and the number of attempts made. -/
def retryGo (cfg : RetryConfig) (method : String) (statusOf : Nat → Nat) :
    Nat → Nat → Nat × Nat
  | 0, i => (statusOf i, i + 1)
  | b + 1, i =>
    if shouldRetry cfg method (statusOf i) then
      retryGo cfg method statusOf b (i + 1)
    else
      (statusOf i, i + 1)

/-- One request issued through the retry-mounted session. -/
def runWithRetries (cfg : RetryConfig) (method : String) (statusOf : Nat → Nat) :
    Nat × Nat :=
  retryGo cfg method statusOf cfg.total 0

/-- Name cleanup in `parse_names_from_list` (`src/api.py` lines 41-55):
strip every character outside `[a-zA-Z\s]`, then re-join the whitespace-split
words with single spaces. -/
def cleanName (line : String) : String :=
  String.intercalate " "
    (pyWords (String.mk (line.toList.filter (fun c => c.isAlpha || c.isWhitespace))))

/-- The names `parse_names_from_list` keeps: cleaned, truthy, at least two
words (`src/api.py` lines 44-55). -/
def parseNamesFromList (names : List String) : List String :=
  (names.map cleanName).filter
    (fun n => !(n == "") && decide (2 ≤ (pyWords n).length))

/-- The per-item loop of `process_bulk_names` (`src/api.py` lines 114-131): a
`try`/`except` around each lookup appends truthy results and skips both
failures and `None` results, continuing with the remaining names. -/
def bulkLoop (fetch : String → Except String (Option MatchResult)) :
    List String → List MatchResult
  | [] => []
  | n :: ns =>
    match fetch n with
    | .error _ => bulkLoop fetch ns
    | .ok none => bulkLoop fetch ns
    | .ok (some m) => m :: bulkLoop fetch ns

/-- Shallow embedding of `process_bulk_names` (`src/api.py` lines 99-134), with
the single-name resolution abstracted as `fetch` (the source calls
`fetch_physician_data` with the request's state and a fixed URL). -/
def processBulkNames (fetch : String → Except String (Option MatchResult))
    (names : List String) : List MatchResult :=
  bulkLoop fetch (parseNamesFromList names)

/-- Decidable equality of `Except` results, for evaluating the embedding at
concrete inputs. -/
instance {e a : Type} [DecidableEq e] [DecidableEq a] : DecidableEq (Except e a) := fun
  | .error x, .error y => decidable_of_iff (x = y) (by simp)
  | .ok x, .ok y => decidable_of_iff (x = y) (by simp)
  | .error _, .ok _ => .isFalse (by simp)
  | .ok _, .error _ => .isFalse (by simp)

/-- Case-insensitive equality of an optional row field with a query string,
as the claims state it: an absent field never matches. -/
def ciEqOpt (field : Option String) (s : String) : Bool :=
  match field with
  | none => false
  | some v => pyLower v == pyLower s

/-- Tier-1 match as claim C1 states it: last/org name case-insensitively
equals the parsed last name; the parsed first name is empty or the row's
first name case-insensitively starts with it; and when a state was supplied
the row's state case-insensitively equals it. -/
def tier1Match (firstName lastName : String) (state : Option String)
    (r : RawRow) : Bool :=
  ciEqOpt r.lastOrgName lastName &&
  (firstName == "" ||
    (match r.firstName with
     | none => false
     | some fn => pyStartswith (pyLower fn) (pyLower firstName))) &&
  (!(stateSupplied state) || ciEqOpt r.state (state.getD ""))

/-- The boolean the scan loop tests on a row whose name fields are present. -/
def scanPred (firstName lastName : String) (r : RawRow) : Bool :=
  (pyLower (r.lastOrgName.getD "") == pyLower lastName) &&
  (firstName == "" ||
    pyStartswith (pyLower (r.firstName.getD "")) (pyLower firstName))

/-- Case-insensitive substring containment (Python `a in b` on lowered
strings), used to state the specification's Tier-2 condition. -/
def containsCI (hay needle : String) : Bool :=
  (List.range ((pyLower hay).toList.length + 1)).any
    (fun i => List.isPrefixOf (pyLower needle).toList ((pyLower hay).toList.drop i))

/-- Follows the specification's words for a Tier-2 row (spec §4.2 step 5):
the row's first name contains the parsed first name as a case-insensitive
substring while the last name matches exactly.  Stated from the spec for
comparison with the code, which has no corresponding branch. -/
def specTier2Match (firstName lastName : String) (r : RawRow) : Bool :=
  ciEqOpt r.lastOrgName lastName && containsCI (r.firstName.getD "") firstName

def rowJon : RawRow :=
  { npi := some "10", firstName := some "Jon", lastOrgName := some "Smith"
    state := some "CA", totBenes := some 3, totAllowed := some 4 }

def rowJohn : RawRow :=
  { npi := some "11", firstName := some "John", lastOrgName := some "Smith"
    state := some "CA", totBenes := some 6, totAllowed := some 8 }

def rowNoNames : RawRow :=
  { npi := some "9", firstName := none, lastOrgName := none
    state := none, totBenes := none, totAllowed := none }

def rowNoFirst : RawRow :=
  { npi := some "2", firstName := none, lastOrgName := some "Smith"
    state := some "CA", totBenes := none, totAllowed := none }

def rowJohnCA : RawRow :=
  { npi := some "3", firstName := some "John", lastOrgName := some "Smith"
    state := some "CA", totBenes := some 1, totAllowed := some 2 }

def rowBjohn : RawRow :=
  { npi := some "7", firstName := some "BJOHN", lastOrgName := some "Smith"
    state := some "CA", totBenes := some 5, totAllowed := some 7 }

def rowWsNpi : RawRow :=
  { npi := some " 12345", firstName := some "A", lastOrgName := some "B"
    state := some "CA", totBenes := some 1, totAllowed := some 2 }

def rowJohnTX : RawRow :=
  { npi := some "20", firstName := some "John", lastOrgName := some "Smith"
    state := some "TX", totBenes := some 9, totAllowed := some 9 }

def rowNoBenes : RawRow :=
  { npi := some "30", firstName := some "John", lastOrgName := some "Smith"
    state := some "CA", totBenes := none, totAllowed := none }

theorem toNat_ofNat_valid {n : Nat} (h : n.isValidChar) : (Char.ofNat n).toNat = n := by
  rw [Char.ofNat, dif_pos h]
  rfl

theorem pyCharLower_pyCharUpper (c : Char) : pyCharLower (pyCharUpper c) = pyCharLower c := by
  unfold pyCharUpper
  by_cases h : 97 ≤ c.toNat ∧ c.toNat ≤ 122
  · rw [if_pos h]
    have hv : (c.toNat - 32).isValidChar := Or.inl (by omega)
    have ht : (Char.ofNat (c.toNat - 32)).toNat = c.toNat - 32 := toNat_ofNat_valid hv
    unfold pyCharLower
    rw [if_pos (by rw [ht]; omega), if_neg (by omega), ht]
    have h32 : c.toNat - 32 + 32 = c.toNat := by omega
    rw [h32, Char.ofNat_toNat]
  · rw [if_neg h]

theorem pyLower_pyUpper (s : String) : pyLower (pyUpper s) = pyLower s := by
  unfold pyLower pyUpper
  simp [List.map_map]
  congr 1
  exact List.map_congr_left (fun c _ => pyCharLower_pyCharUpper c)

theorem find?_congr_mem {α : Type} {p q : α → Bool} :
    ∀ (l : List α), (∀ a ∈ l, p a = q a) → l.find? p = l.find? q
  | [], _ => rfl
  | a :: l, h => by
    have ha := h a (List.mem_cons_self a l)
    rw [List.find?_cons, List.find?_cons, ha,
      find?_congr_mem l (fun x hx => h x (List.mem_cons_of_mem a hx))]

theorem mem_remoteQuery_passes {dataset : List RawRow} {p : Params} {r : RawRow}
    (h : r ∈ remoteQuery dataset p) : rowPassesFilter p r = true := by
  unfold remoteQuery at h
  exact (List.mem_filter.mp (List.take_subset _ _ h)).2

theorem scanName_eq_find (lastName firstName : String) :
    ∀ (rows : List RawRow),
      (∀ r ∈ rows, r.lastOrgName.isSome = true ∧ r.firstName.isSome = true) →
      scanName lastName firstName rows =
        .ok ((rows.find? (scanPred firstName lastName)).map projectRow)
  | [], _ => rfl
  | r :: rs, hw => by
    obtain ⟨hl, hf⟩ := hw r (List.mem_cons_self r rs)
    obtain ⟨lon, hlon⟩ := Option.isSome_iff_exists.mp hl
    obtain ⟨fn, hfn⟩ := Option.isSome_iff_exists.mp hf
    have ih := scanName_eq_find lastName firstName rs
      (fun x hx => hw x (List.mem_cons_of_mem r hx))
    simp only [scanName, hlon, hfn, List.find?_cons, scanPred, Option.getD_some]
    cases hb1 : (pyLower lon == pyLower lastName) <;>
      cases hb2 : (firstName == "") <;>
        cases hb3 : pyStartswith (pyLower fn) (pyLower firstName) <;>
          simp [hb1, hb2, hb3, buildResult, hlon, hfn, ih]

theorem buildResult_ok {r : RawRow} {m : MatchResult}
    (h : buildResult r = .ok (some m)) : m = projectRow r := by
  unfold buildResult at h
  split at h
  · simp at h
    exact h.symm
  · simp at h

theorem scanName_ok_mem (lastName firstName : String) :
    ∀ (rows : List RawRow) (m : MatchResult),
      scanName lastName firstName rows = .ok (some m) →
      ∃ r ∈ rows, m = projectRow r
  | [], _, h => by simp [scanName] at h
  | r :: rs, m, h => by
    unfold scanName at h
    split at h
    · exact absurd h (by simp)
    · split at h
      · split at h
        · exact ⟨r, List.mem_cons_self r rs, buildResult_ok h⟩
        · split at h
          · exact absurd h (by simp)
          · split at h
            · exact ⟨r, List.mem_cons_self r rs, buildResult_ok h⟩
            · obtain ⟨r', hr', hm⟩ := scanName_ok_mem lastName firstName rs m h
              exact ⟨r', List.mem_cons_of_mem r hr', hm⟩
      · obtain ⟨r', hr', hm⟩ := scanName_ok_mem lastName firstName rs m h
        exact ⟨r', List.mem_cons_of_mem r hr', hm⟩

theorem fetched_name_row {dataset : List RawRow} {l : String} {st : Option String}
    {r : RawRow} (h : r ∈ remoteQuery dataset (nameParams l st)) :
    r.lastOrgName = some l ∧
    (stateSupplied st = true → r.state = some (pyUpper (st.getD ""))) := by
  have hp := mem_remoteQuery_passes h
  unfold rowPassesFilter nameParams stateFilter at hp
  cases hst : stateSupplied st <;> rw [hst] at hp <;> simp at hp
  · exact ⟨hp, by simp⟩
  · exact ⟨hp.1, fun _ => hp.2⟩

theorem fetched_npi_row {dataset : List RawRow} {term : String} {st : Option String}
    {r : RawRow} (h : r ∈ remoteQuery dataset (npiParams term st)) :
    r.npi = some term ∧
    (stateSupplied st = true → r.state = some (pyUpper (st.getD ""))) := by
  have hp := mem_remoteQuery_passes h
  unfold rowPassesFilter npiParams stateFilter at hp
  cases hst : stateSupplied st <;> rw [hst] at hp <;> simp at hp
  · exact ⟨hp, by simp⟩
  · exact ⟨hp.1, fun _ => hp.2⟩

theorem resolve_npi_ok_mem {dataset : List RawRow} {term : String}
    {st : Option String} {m : MatchResult}
    (h : resolve dataset term .npi st = .ok (some m)) :
    ∃ r ∈ remoteQuery dataset (npiParams term st), m = projectRow r := by
  simp only [resolve, fetchPhysicianData] at h
  cases hq : remoteQuery dataset (npiParams term st) with
  | nil => rw [hq] at h; simp at h
  | cons r rest =>
    rw [hq] at h
    exact ⟨r, List.mem_cons_self r rest, buildResult_ok (by simpa using h)⟩

theorem resolve_name_ok_mem {dataset : List RawRow} {term : String}
    {st : Option String} {m : MatchResult} {f l : String}
    (hp : parseName term = .ok (f, l))
    (h : resolve dataset term .name st = .ok (some m)) :
    ∃ r ∈ remoteQuery dataset (nameParams l st), m = projectRow r := by
  simp only [resolve, fetchPhysicianData, hp] at h
  by_cases hq : remoteQuery dataset (nameParams l st) = []
  · rw [if_pos hq] at h
    simp at h
  · rw [if_neg hq] at h
    exact scanName_ok_mem l f _ m h

theorem scanPred_eq_tier1_of_fetched {f l : String} {st : Option String}
    {r : RawRow} (hlon : r.lastOrgName = some l) (hfn : r.firstName.isSome = true)
    (hstate : stateSupplied st = true → r.state = some (pyUpper (st.getD ""))) :
    scanPred f l r = tier1Match f l st r := by
  obtain ⟨fn, hfn'⟩ := Option.isSome_iff_exists.mp hfn
  unfold scanPred tier1Match ciEqOpt
  rw [hlon, hfn']
  simp only [Option.getD_some]
  cases hst : stateSupplied st
  · simp
  · have hr := hstate hst
    rw [hr]
    simp [pyLower_pyUpper]

theorem stateFilter_some {s : String} (hs : ¬ s = "") :
    stateFilter (some s) = some (pyUpper s) := by
  simp [stateFilter, stateSupplied, hs]

theorem retryGo_attempts_le (cfg : RetryConfig) (method : String)
    (statusOf : Nat → Nat) : ∀ b i, (retryGo cfg method statusOf b i).2 ≤ i + b + 1
  | 0, i => by simp [retryGo]
  | b + 1, i => by
    unfold retryGo
    by_cases h : shouldRetry cfg method (statusOf i) = true
    · rw [if_pos h]
      have := retryGo_attempts_le cfg method statusOf b (i + 1)
      omega
    · rw [if_neg h]
      simp

theorem dropWhile_ws_nil :
    ∀ cs : List Char, cs.all Char.isWhitespace = true →
      cs.dropWhile Char.isWhitespace = []
  | [], _ => rfl
  | c :: cs, h => by
    simp only [List.all_cons, Bool.and_eq_true] at h
    simp [List.dropWhile, h.1, dropWhile_ws_nil cs h.2]

theorem pySplit1_all_ws {term : String}
    (h : term.toList.all Char.isWhitespace = true) : pySplit1 term = [] := by
  simp only [pySplit1]
  rw [dropWhile_ws_nil term.toList h]
  rfl

/-- C1 (amended): for a ByName request whose fetched row sequence has every
first-name field present and contains a Tier-1 row, `resolve` returns the
first Tier-1 row in scan order as the match and scans no further.  (The
amendment adds the first-name-presence condition: see the counterexample.) -/
theorem c1_first_tier1 {dataset : List RawRow} {term : String} {st : Option String}
    {f l : String} {r : RawRow}
    (hp : parseName term = .ok (f, l))
    (hw : ∀ r' ∈ remoteQuery dataset (nameParams l st), r'.firstName.isSome = true)
    (hfind : (remoteQuery dataset (nameParams l st)).find? (tier1Match f l st) = some r) :
    resolve dataset term .name st = .ok (some (projectRow r)) := by
  have hwf : ∀ r' ∈ remoteQuery dataset (nameParams l st),
      r'.lastOrgName.isSome = true ∧ r'.firstName.isSome = true :=
    fun r' hr' => ⟨by rw [(fetched_name_row hr').1]; rfl, hw r' hr'⟩
  have hcong : (remoteQuery dataset (nameParams l st)).find? (scanPred f l) =
      (remoteQuery dataset (nameParams l st)).find? (tier1Match f l st) :=
    find?_congr_mem _ (fun r' hr' =>
      scanPred_eq_tier1_of_fetched (fetched_name_row hr').1 (hw r' hr')
        (fetched_name_row hr').2)
  have hne : remoteQuery dataset (nameParams l st) ≠ [] := by
    intro h0
    rw [h0] at hfind
    simp at hfind
  simp only [resolve, fetchPhysicianData, hp]
  rw [if_neg hne, scanName_eq_find l f _ hwf, hcong, hfind]
  rfl

/-- C1 witness, the claim's own example: term "John Smith" over rows
Jon Smith / John Smith returns the second row, because "Jon" does not start
with "John". -/
theorem c1_witness :
    resolve [rowJon, rowJohn] "John Smith" .name none =
      .ok (some (projectRow rowJohn)) :=
  @c1_first_tier1 [rowJon, rowJohn] "John Smith" none "John" "Smith" rowJohn
    (by decide) (by decide) (by decide)

/-- C1 counterexample: the fetched sequence contains a Tier-1 row (the
second), yet `resolve` raises `KeyError` on the first row, whose first-name
field is absent, instead of returning the Tier-1 row. -/
theorem c1_cex :
    ((remoteQuery [rowNoFirst, rowJohnCA] (nameParams "Smith" none)).find?
      (tier1Match "John" "Smith" none)).isSome = true ∧
    resolve [rowNoFirst, rowJohnCA] "John Smith" .name none =
      .error "KeyError: Rndrng_Prvdr_First_Name" :=
  ⟨by decide, by decide⟩

/-- C2 (amended): when no fetched row Tier-1-matches (and every fetched row
has its first-name field present), `resolve` returns NotFound — the code has
no Tier-2 fallback, so a Tier-2 row present in the same scan is never
returned. -/
theorem c2_no_tier2 {dataset : List RawRow} {term : String} {st : Option String}
    {f l : String}
    (hp : parseName term = .ok (f, l))
    (hw : ∀ r' ∈ remoteQuery dataset (nameParams l st), r'.firstName.isSome = true)
    (hnone : ∀ r' ∈ remoteQuery dataset (nameParams l st), tier1Match f l st r' = false) :
    resolve dataset term .name st = .ok none := by
  have hwf : ∀ r' ∈ remoteQuery dataset (nameParams l st),
      r'.lastOrgName.isSome = true ∧ r'.firstName.isSome = true :=
    fun r' hr' => ⟨by rw [(fetched_name_row hr').1]; rfl, hw r' hr'⟩
  have hcong : (remoteQuery dataset (nameParams l st)).find? (scanPred f l) =
      (remoteQuery dataset (nameParams l st)).find? (tier1Match f l st) :=
    find?_congr_mem _ (fun r' hr' =>
      scanPred_eq_tier1_of_fetched (fetched_name_row hr').1 (hw r' hr')
        (fetched_name_row hr').2)
  have hfind : (remoteQuery dataset (nameParams l st)).find? (tier1Match f l st) = none :=
    List.find?_eq_none.mpr (fun x hx => by rw [hnone x hx]; simp)
  simp only [resolve, fetchPhysicianData, hp]
  by_cases hq : remoteQuery dataset (nameParams l st) = []
  · rw [if_pos hq]
  · rw [if_neg hq, scanName_eq_find l f _ hwf, hcong, hfind]
    rfl

/-- C2 witness: a dataset whose only fetched row is Tier-2 (first name
"BJOHN" contains "john") still resolves to NotFound. -/
theorem c2_witness : resolve [rowBjohn] "John Smith" .name none = .ok none :=
  @c2_no_tier2 [rowBjohn] "John Smith" none "John" "Smith"
    (by decide) (by decide) (by decide)

/-- C2 counterexample: rowBjohn is fetched, is not Tier-1, is Tier-2 by the
specification's wording, yet `resolve` returns NotFound rather than the first
Tier-2 row. -/
theorem c2_cex :
    remoteQuery [rowBjohn] (nameParams "Smith" none) = [rowBjohn] ∧
    tier1Match "John" "Smith" none rowBjohn = false ∧
    specTier2Match "John" "Smith" rowBjohn = true ∧
    resolve [rowBjohn] "John Smith" .name none = .ok none :=
  ⟨by decide, by decide, by decide, by decide⟩

/-- C3: when a (truthy) state is supplied, its upper-cased exact filter is
added to the remote query for both search kinds, and any returned match
carries exactly that upper-cased state — so no row whose state differs
case-insensitively from the supplied state is ever selected. -/
theorem c3_state (dataset : List RawRow) (term : String) (kind : SearchType)
    (s : String) (p : Params) (m : MatchResult) (hs : ¬ s = "") :
    (buildParams term kind (some s) = .ok p → p.filterState = some (pyUpper s)) ∧
    (resolve dataset term kind (some s) = .ok (some m) →
      m.state = some (pyUpper s) ∧ pyLower (pyUpper s) = pyLower s) := by
  have hsup : stateSupplied (some s) = true := by simp [stateSupplied, hs]
  constructor
  · intro hb
    cases kind with
    | npi =>
      simp only [buildParams] at hb
      simp at hb
      rw [← hb]
      simp [npiParams, stateFilter_some hs]
    | name =>
      simp only [buildParams] at hb
      cases hpn : parseName term with
      | error e => rw [hpn] at hb; simp [Except.map] at hb
      | ok fl =>
        rw [hpn] at hb
        simp [Except.map] at hb
        rw [← hb]
        simp [nameParams, stateFilter_some hs]
  · intro h
    refine ⟨?_, pyLower_pyUpper s⟩
    cases kind with
    | npi =>
      obtain ⟨r, hr, rfl⟩ := resolve_npi_ok_mem h
      have h2 := (fetched_npi_row hr).2 hsup
      simpa [projectRow] using h2
    | name =>
      cases hpn : parseName term with
      | error e =>
        simp only [resolve, fetchPhysicianData, hpn] at h
        exact absurd h (by simp)
      | ok fl =>
        obtain ⟨f, l⟩ := fl
        obtain ⟨r, hr, rfl⟩ := resolve_name_ok_mem hpn h
        have h2 := (fetched_name_row hr).2 hsup
        simpa [projectRow] using h2

/-- C3 witness: state "tx" on a name search — the built parameters carry
filter "TX" and the matched Texas row's state equals "TX", case-insensitively
equal to "tx". -/
theorem c3_witness :
    (buildParams "John Smith" .name (some "tx") = .ok (nameParams "Smith" (some "tx")) →
      (nameParams "Smith" (some "tx")).filterState = some (pyUpper "tx")) ∧
    (resolve [rowJohnTX] "John Smith" .name (some "tx") =
        .ok (some (projectRow rowJohnTX)) →
      (projectRow rowJohnTX).state = some (pyUpper "tx") ∧
      pyLower (pyUpper "tx") = pyLower "tx") :=
  c3_state [rowJohnTX] "John Smith" .name "tx" (nameParams "Smith" (some "tx"))
    (projectRow rowJohnTX) (by decide)

/-- C4 (amended): for a ByNpi request, a returned match's npi equals the raw
request term (the code performs no trimming), and the first row of the
NPI-filtered remote result is accepted as the match without any name
comparison whenever its name fields are present. -/
theorem c4_npi (dataset : List RawRow) (term : String) (st : Option String)
    (m : MatchResult) (r : RawRow) (rest : List RawRow) (fn lon : String) :
    (resolve dataset term .npi st = .ok (some m) → m.npi = some term) ∧
    (remoteQuery dataset (npiParams term st) = r :: rest →
      r.firstName = some fn → r.lastOrgName = some lon →
      resolve dataset term .npi st = .ok (some (projectRow r))) := by
  constructor
  · intro h
    obtain ⟨r', hr', rfl⟩ := resolve_npi_ok_mem h
    have h1 := (fetched_npi_row hr').1
    simpa [projectRow] using h1
  · intro hq hfn hlon
    simp only [resolve, fetchPhysicianData, hq]
    simp [buildResult, hfn, hlon]

/-- C4 witness: NPI term "11" over a one-row dataset — the row is accepted
unchecked and the result npi is "11". -/
theorem c4_witness :
    (resolve [rowJohn] "11" .npi none = .ok (some (projectRow rowJohn)) →
      (projectRow rowJohn).npi = some "11") ∧
    (remoteQuery [rowJohn] (npiParams "11" none) = rowJohn :: [] →
      rowJohn.firstName = some "John" → rowJohn.lastOrgName = some "Smith" →
      resolve [rowJohn] "11" .npi none = .ok (some (projectRow rowJohn))) :=
  c4_npi [rowJohn] "11" none (projectRow rowJohn) rowJohn [] "John" "Smith"

/-- C4 counterexample: with term " 12345" (leading blank) and a dataset row
whose NPI is exactly " 12345", a match is returned whose npi field is the raw
term, not the trimmed term "12345" — the code never trims. -/
theorem c4_cex :
    resolve [rowWsNpi] " 12345" .npi none = .ok (some (projectRow rowWsNpi)) ∧
    (projectRow rowWsNpi).npi ≠ some (pyStrip " 12345") :=
  ⟨by decide, by decide⟩

/-- C5: a matching row whose beneficiary-count and allowed-amount fields are
both absent yields a MatchResult with totalBeneficiaries 0 and
totalAllowedAmount 0, not an error. -/
theorem c5_missing_defaults (term f l fn : String) (r : RawRow)
    (hp : parseName term = .ok (f, l))
    (hfn : r.firstName = some fn) (hlon : r.lastOrgName = some l)
    (hbenes : r.totBenes = none) (hallow : r.totAllowed = none)
    (hm : f = "" ∨ pyStartswith (pyLower fn) (pyLower f) = true) :
    resolve [r] term .name none =
      .ok (some { name := fn ++ " " ++ l, totBenes := 0, totAllowed := 0,
                  npi := r.npi, state := r.state }) := by
  have hq : remoteQuery [r] (nameParams l none) = [r] := by
    simp [remoteQuery, rowPassesFilter, nameParams, stateFilter, stateSupplied, hlon]
  simp only [resolve, fetchPhysicianData, hp, hq]
  rw [if_neg (by simp)]
  simp only [scanName, hlon, hfn]
  rw [if_pos (by simp)]
  rcases hm with rfl | hsw
  · rw [if_pos (by simp)]
    simp [buildResult, hfn, hlon, projectRow, hbenes, hallow]
  · by_cases hf0 : (f == "") = true
    · rw [if_pos hf0]
      simp [buildResult, hfn, hlon, projectRow, hbenes, hallow]
    · rw [if_neg hf0, if_pos hsw]
      simp [buildResult, hfn, hlon, projectRow, hbenes, hallow]

/-- C5 witness: rowNoBenes (no count, no amount) resolves to a result with
both numeric fields 0. -/
theorem c5_witness :
    resolve [rowNoBenes] "John Smith" .name none =
      .ok (some { name := "John" ++ " " ++ "Smith", totBenes := 0, totAllowed := 0,
                  npi := rowNoBenes.npi, state := rowNoBenes.state }) :=
  c5_missing_defaults "John Smith" "John" "Smith" "John" rowNoBenes
    (by decide) rfl rfl rfl rfl (Or.inr (by decide))

/-- C6 (amended): a scanned row missing a name field is NOT skipped — the
scan raises KeyError on a missing last/org name, and on a missing first name
when the last name matches and a first name was given; only a row whose
present last name does not match is passed over. -/
theorem c6_scan_raises (l f : String) (r r2 : RawRow) (rs : List RawRow)
    (lon : String) (hf : ¬ f = "") :
    (r2.lastOrgName = none →
      scanName l f (r2 :: rs) = .error "KeyError: Rndrng_Prvdr_Last_Org_Name") ∧
    (r.lastOrgName = some lon → r.firstName = none →
      (pyLower lon == pyLower l) = true →
      scanName l f (r :: rs) = .error "KeyError: Rndrng_Prvdr_First_Name") ∧
    (r.lastOrgName = some lon → (pyLower lon == pyLower l) = false →
      scanName l f (r :: rs) = scanName l f rs) := by
  refine ⟨?_, ?_, ?_⟩
  · intro h2
    simp only [scanName, h2]
  · intro hlon hfn h1
    simp only [scanName, hlon, hfn]
    rw [if_pos h1, if_neg (by simp [hf])]
  · intro hlon h1
    simp only [scanName, hlon]
    rw [if_neg (by simp [h1])]

/-- C6 witness: concrete rows with a missing last/org name and a missing
first name make the scan raise at the stated points. -/
theorem c6_witness :
    (rowNoNames.lastOrgName = none →
      scanName "Smith" "John" (rowNoNames :: [rowJohnCA]) =
        .error "KeyError: Rndrng_Prvdr_Last_Org_Name") ∧
    (rowNoFirst.lastOrgName = some "Smith" → rowNoFirst.firstName = none →
      (pyLower "Smith" == pyLower "Smith") = true →
      scanName "Smith" "John" (rowNoFirst :: [rowJohnCA]) =
        .error "KeyError: Rndrng_Prvdr_First_Name") ∧
    (rowNoFirst.lastOrgName = some "Smith" →
      (pyLower "Smith" == pyLower "Smith") = false →
      scanName "Smith" "John" (rowNoFirst :: [rowJohnCA]) =
        scanName "Smith" "John" [rowJohnCA]) :=
  c6_scan_raises "Smith" "John" rowNoFirst rowNoNames [rowJohnCA] "Smith" (by decide)

/-- C6 counterexample: a row missing its name fields entirely makes the scan
raise KeyError instead of being skipped, and through the full pipeline a
fetched row with an absent first name aborts the scan before the later
matching row. -/
theorem c6_cex :
    scanName "Smith" "John" [rowNoNames, rowJohnCA] =
      .error "KeyError: Rndrng_Prvdr_Last_Org_Name" ∧
    resolve [rowNoFirst, rowJohnCA] "John Smith" .name none =
      .error "KeyError: Rndrng_Prvdr_First_Name" :=
  ⟨by decide, by decide⟩

/-- C7: bulk processing never aborts on a failing item — the batch equals the
filter-map of successful truthy lookups over the parsed names, so an error on
one name leaves the results of the other items intact. -/
theorem c7_bulk (fetch : String → Except String (Option MatchResult))
    (names : List String) :
    processBulkNames fetch names =
      (parseNamesFromList names).filterMap
        (fun n => match fetch n with | .ok (some m) => some m | _ => none) := by
  unfold processBulkNames
  generalize parseNamesFromList names = ls
  induction ls with
  | nil => rfl
  | cons n ns ih =>
    simp only [bulkLoop, List.filterMap_cons]
    cases hn : fetch n with
    | error e => simp [ih]
    | ok o => cases o <;> simp [ih]

/-- C8 (amended): the mounted retry policy makes at most total+1 = 4 attempts
per query; a non-read-only method or a first status outside
429/500/502/503/504 gets exactly one attempt (no retry); the per-attempt
timeout constant is 30 seconds. -/
theorem c8_retry_policy (method : String) (statusOf : Nat → Nat) :
    (runWithRetries retryStrategy method statusOf).2 ≤ retryStrategy.total + 1 ∧
    (method ∉ retryStrategy.allowedMethods →
      (runWithRetries retryStrategy method statusOf).2 = 1) ∧
    (statusOf 0 ∉ retryStrategy.statusForcelist →
      (runWithRetries retryStrategy method statusOf).2 = 1) ∧
    requestTimeoutSeconds = 30 := by
  refine ⟨?_, ?_, ?_, rfl⟩
  · have := retryGo_attempts_le retryStrategy method statusOf retryStrategy.total 0
    simpa [runWithRetries] using this
  · intro hm
    have hfalse : shouldRetry retryStrategy method (statusOf 0) = false := by
      simp [shouldRetry, hm]
    simp [runWithRetries, retryStrategy, retryGo]
    simp [retryStrategy] at hfalse
    simp [hfalse]
  · intro hst
    have hfalse : shouldRetry retryStrategy method (statusOf 0) = false := by
      simp [shouldRetry, hst]
    simp [runWithRetries, retryStrategy, retryGo]
    simp [retryStrategy] at hfalse
    simp [hfalse]

/-- C8 witness: a POST with a 503 response is not retried — one attempt. -/
theorem c8_witness :
    (runWithRetries retryStrategy "POST" (fun _ => 503)).2 ≤ retryStrategy.total + 1 ∧
    ("POST" ∉ retryStrategy.allowedMethods →
      (runWithRetries retryStrategy "POST" (fun _ => 503)).2 = 1) ∧
    ((fun _ : Nat => 503) 0 ∉ retryStrategy.statusForcelist →
      (runWithRetries retryStrategy "POST" (fun _ => 503)).2 = 1) ∧
    requestTimeoutSeconds = 30 :=
  c8_retry_policy "POST" (fun _ => 503)

/-- C8 counterexample: a GET receiving 503, 503, 503, 200 succeeds on the
fourth attempt — `Retry(total=3)` allows three retries after the initial
attempt, so "at most 3 attempts total" is false. -/
theorem c8_cex :
    runWithRetries retryStrategy "GET" (fun i => if i < 3 then 503 else 200) =
      (200, 4) := by
  decide

/-- C9: `resolve` is a deterministic function of the request and the dataset
snapshot — identical inputs give bit-identical results. -/
theorem c9_deterministic (d1 d2 : List RawRow) (t1 t2 : String)
    (k1 k2 : SearchType) (s1 s2 : Option String)
    (hd : d1 = d2) (ht : t1 = t2) (hk : k1 = k2) (hs : s1 = s2) :
    resolve d1 t1 k1 s1 = resolve d2 t2 k2 s2 := by
  subst hd
  subst ht
  subst hk
  subst hs
  rfl

/-- C9 witness: two identical concrete calls return the same result. -/
theorem c9_witness :
    resolve [rowJohn] "John Smith" .name none =
      resolve [rowJohn] "John Smith" .name none :=
  c9_deterministic [rowJohn] [rowJohn] "John Smith" "John Smith" .name .name
    none none rfl rfl rfl rfl

/-- C10: a ByName request whose term is empty or whitespace-only raises
IndexError (indexing the empty token list) for every possible remote oracle —
so the failure happens before any remote call and is never NotFound. -/
theorem c10_empty_term (query : Params → List RawRow) (state : Option String)
    (term : String) (h : term.toList.all Char.isWhitespace = true) :
    fetchPhysicianData query term .name state =
      .error "IndexError: list index out of range" := by
  simp only [fetchPhysicianData, parseName, pySplit1_all_ws h]

/-- C10 witness: the whitespace term "   " raises IndexError with a remote
oracle that would return a row. -/
theorem c10_witness :
    fetchPhysicianData (fun _ => [rowJohn]) "   " .name none =
      .error "IndexError: list index out of range" :=
  c10_empty_term (fun _ => [rowJohn]) none "   " (by decide)
